import Mathlib

/-!
Verification of the six-stage legislative-impact pipeline
(`traitements/shared/Modele/analyseur_loi/agents/`).

Each agent's scoring arithmetic is embedded shallowly: Python floats become
exact rationals (`ℚ`) where only field arithmetic and comparisons occur, and
reals (`ℝ`) where the S-curve's real exponentiation is involved; Python dicts
iterated in insertion order become association lists; string containment
(`in`) becomes an executable substring test on `List Char`.
-/

namespace LawPipeline

/-- Executable substring test: `contains_sub needle hay` mirrors Python's
`needle in hay` on strings (an empty needle is contained in anything). -/
def contains_sub (needle : List Char) : List Char → Bool
  | [] => needle.isEmpty
  | c :: t => needle.isPrefixOf (c :: t) || contains_sub needle t

/-! ## Agent 2 — Sector Classifier
(`agent_02_sector_classifier.py`) -/

/-- The static per-sector ticker lists of `_create_sector_taxonomy`
(lines 52–64), in dict insertion order. -/
def ticker_sectors : List (String × List String) :=
  [("technology",
      ["NVDA", "MSFT", "AAPL", "AMZN", "META", "AVGO", "GOOGL", "GOOG", "TSLA", "ORCL", "CRM", "IBM", "INTU", "NOW", "TXN", "ANET", "QCOM", "ACN", "AMAT", "ADBE", "MU", "LRCX", "KLAC", "ADI", "PANW", "SNPS", "CDNS", "DELL", "CRWD", "INTC", "PTC", "VRSN", "TYL", "TTD", "NTAP", "CDW", "ADSK", "WDAY", "NXPI", "FTNT", "AXON", "DDOG", "EPAM", "GDDY", "FFIV", "TRMB", "IT", "SMCI", "HPE", "HPQ", "CTSH", "AKAM", "PAYC", "CPAY", "KEYS", "MCHP", "ON", "SWKS", "TER", "ZBRA", "AMD", "CSCO", "ADP"]),
   ("healthcare",
      ["LLY", "UNH", "JNJ", "ABBV", "MRK", "TMO", "ABT", "ISRG", "AMGN", "BSX", "DHR", "GILD", "SYK", "PFE", "VRTX", "BMY", "MDT", "REGN", "HCA", "CVS", "CI", "HUM", "ELV", "BIIB", "ZTS", "DXCM", "IDXX", "IQV", "PODD", "LH", "VTRS", "BAX", "BDX", "RMD", "ALGN", "MRNA", "WAT", "INCY", "RVTY", "WBA", "DVA", "MOH", "HSIC", "CRL"]),
   ("financial",
      ["BRK,B", "JPM", "V", "MA", "WFC", "MS", "GS", "BLK", "SCHW", "C", "SPGI", "AXP", "COF", "BX", "KKR", "PNC", "AJG", "BK", "FI", "USB", "TFC", "CME", "ICE", "MCO", "NDAQ", "CBOE", "TRV", "PGR", "AFL", "ALL", "CB", "AON", "MMC", "AIG", "PRU", "MET", "AMP", "CINF", "WRB", "STT", "NTRS", "RF", "FITB", "HBAN", "KEY", "CFG", "MTB", "STZ", "RJF", "BRO", "TROW", "BEN", "IVZ", "BAC"]),
   ("energy",
      ["XOM", "CVX", "COP", "EOG", "SLB", "PSX", "MPC", "VLO", "OXY", "KMI", "WMB", "OKE", "TRGP", "BKR", "HAL", "DVN", "FANG", "EQT", "APA", "CTRA"]),
   ("consumer_discretionary",
      ["BKNG", "HD", "MCD", "NKE", "LOW", "TJX", "SBUX", "ABNB", "MAR", "RCL", "ORLY", "AZO", "YUM", "CMG", "ROST", "TGT", "DECK", "DPZ", "ULTA", "LULU", "BBY", "DRI", "DLTR", "GM", "F", "TSCO", "LVS", "WYNN", "MGM", "CCL", "NCLH", "HAS", "LUV", "UAL", "DAL", "EXPE", "APTV", "TPR", "RL", "CHRW", "EXPD", "KMX", "LKQ", "MHK", "WHR", "POOL"]),
   ("industrials",
      ["CAT", "RTX", "BA", "UNP", "DE", "HON", "APH", "LMT", "GD", "NOC", "MMM", "TDG", "ETN", "ITW", "EMR", "PH", "CARR", "CMI", "FDX", "UPS", "GWW", "FAST", "PWR", "ROK", "DOV", "SWK", "TXT", "ALLE", "JCI", "OTIS", "IR", "ODFL", "JBHT", "CHRW", "EXPD", "LDOS", "LHX", "HII", "TKO", "GNRC", "WSM", "BLDR", "PHM", "LEN", "DHI", "NVR", "TOL"]),
   ("materials",
      ["LIN", "APD", "SHW", "ECL", "FCX", "NEM", "VMC", "MLM", "NUE", "STLD", "DOW", "LYB", "CF", "MOS", "ALB", "IFF", "PKG", "AMCR", "WY", "IP", "PPG", "EMN", "BG", "BALL", "AVY"]),
   ("real_estate",
      ["PLD", "AMT", "CCI", "EQIX", "PSA", "EXR", "WELL", "DLR", "O", "VICI", "SPG", "AVB", "EQR", "VTR", "ESS", "MAA", "UDR", "CPT", "HST", "ARE", "INVH", "BXP", "KIM", "REG", "FRT"]),
   ("telecommunications",
      ["TMUS", "VZ", "T", "CHTR", "CMCSA", "NFLX", "DIS", "WBD", "FOXA", "FOX", "NWSA", "NWS", "SBAC", "TTWO", "EA", "LYV", "MTCH", "RVTY"]),
   ("consumer_staples",
      ["PG", "KO", "PEP", "COST", "WMT", "PM", "MO", "MDLZ", "CL", "KMB", "GIS", "K", "HSY", "MKC", "SJM", "CPB", "CAG", "KHC", "KDP", "CHD", "CLX", "TAP", "HRL", "TSN", "ADM", "BF,B", "STZ"]),
   ("utilities",
      ["NEE", "SO", "CEG", "DUK", "AEP", "EXC", "XEL", "PEG", "ED", "ETR", "WEC", "PPL", "D", "PCG", "SRE", "AEE", "CMS", "DTE", "EIX", "NI", "LNT", "EVRG", "CNP", "ATO", "NRG", "VST", "FE", "ES", "PNW", "AWK", "AES"])]

/-- `_classify_unknown_ticker`: keyword patterns on the upper-cased ticker,
then the ticker-length heuristic. -/
def classify_unknown_ticker (ticker : String) : String :=
  let tu := ticker.toList.map Char.toUpper
  if ["TECH", "SOFT", "DATA", "CYBER", "AI", "CLOUD"].any
      (fun p => contains_sub p.toList tu) then "technology"
  else if ["BIO", "PHARM", "MED", "HEALTH", "DRUG"].any
      (fun p => contains_sub p.toList tu) then "healthcare"
  else if ["BANK", "FUND", "INVEST", "CAPITAL", "CREDIT"].any
      (fun p => contains_sub p.toList tu) then "financial"
  else if ["OIL", "GAS", "ENERGY", "PETRO", "SOLAR"].any
      (fun p => contains_sub p.toList tu) then "energy"
  else if ticker.length ≤ 3 then "industrials"
  else "consumer_discretionary"

/-- `_assign_sector_by_ticker` (lines 106–112): the loop over the ticker
lists returns the first sector whose list contains the ticker; only on a
complete miss does it fall back to the heuristics. -/
def assign_sector_by_ticker (ticker : String) : String :=
  match ticker_sectors.find? (fun p => p.2.contains ticker) with
  | some p => p.1
  | none => classify_unknown_ticker ticker

/-! ## Agent 4 — Monetary Flow Modeler
(`agent_04_monetary_flow_modeler.py`) -/

/-- `_determine_impact_direction`: classify the net coefficient. -/
def determine_impact_direction (coefficient : ℚ) : String :=
  if coefficient ≥ 6 then "growth"
  else if coefficient ≤ 4 then "decline"
  else "stagnation"

/-- The coefficient→rate step function inside `_calculate_monetary_impact`
(lines 123–132): the if/elif chain evaluated top to bottom. -/
def impact_rate (coefficient : ℚ) : ℚ :=
  if coefficient ≥ 8 then 15/100
  else if coefficient ≥ 6 then 8/100
  else if coefficient ≤ 2 then -(20/100)
  else if coefficient ≤ 4 then -(12/100)
  else 2/100

/-- The numeric fields of the dict returned by `_calculate_monetary_impact`
(the source/destination narrative lists carry no further computation). -/
structure MonetaryImpact where
  capital_inflow : ℚ
  capital_outflow : ℚ
  net_change : ℚ
  deriving Repr, DecidableEq

/-- `_calculate_monetary_impact`: `capital_change = market_cap * impact_rate`. -/
def calculate_monetary_impact (market_cap coefficient : ℚ) : MonetaryImpact :=
  let capital_change := market_cap * impact_rate coefficient
  { capital_inflow := max 0 capital_change
    capital_outflow := max 0 (-capital_change)
    net_change := capital_change }

/-- Net coefficient for one sector in `_model_sector_flows` (lines 83–88):
the mean of the impact coefficients referencing the sector, `0` when no law
impact references it. -/
def net_impact_coefficient (coefficients : List ℚ) : ℚ :=
  if coefficients = [] then 0 else coefficients.sum / coefficients.length

/-! ## Agent 3 — Legislative Impact Analyzer
(`agent_03_legislative_impact_analyzer.py`) -/

/-- Theme keyword lists of `_extract_themes_and_measures`, in dict order. -/
def theme_keywords : List (String × List String) :=
  [("environmental_regulation",
      ["environment", "carbon", "emission", "climate", "green", "renewable"]),
   ("financial_regulation",
      ["bank", "financial", "credit", "investment", "capital", "risk"]),
   ("technology_regulation",
      ["data", "privacy", "digital", "technology", "artificial intelligence", "ai"]),
   ("healthcare_regulation",
      ["health", "medical", "pharmaceutical", "drug", "patient"]),
   ("taxation", ["tax", "fiscal", "revenue", "levy", "duty"]),
   ("trade_regulation", ["trade", "import", "export", "tariff", "commerce"])]

/-- Measure keyword lists of `_extract_themes_and_measures`, in dict order. -/
def measure_keywords : List (String × List String) :=
  [("tax_increase", ["increase tax", "higher tax", "tax rate"]),
   ("new_compliance", ["compliance", "requirement", "must comply"]),
   ("reporting_obligation", ["report", "disclosure", "publish"]),
   ("penalty", ["penalty", "fine", "sanction"]),
   ("subsidy", ["subsidy", "incentive", "support"]),
   ("restriction", ["restrict", "prohibit", "ban", "limit"])]

/-- Categories whose keyword list has a keyword occurring in the (already
lower-cased) content, in table order. -/
def detect_categories (keyword_table : List (String × List String))
    (content_lower : List Char) : List String :=
  (keyword_table.filter
    (fun p => p.2.any (fun k => contains_sub k.toList content_lower))).map Prod.fst

/-- `_extract_themes_and_measures`: lower-case the content, detect themes and
measures, and fall back to the sentinel singletons on an empty detection. -/
def extract_themes_and_measures (content : List Char) : List String × List String :=
  let content_lower := content.map Char.toLower
  let detected_themes := detect_categories theme_keywords content_lower
  let detected_measures := detect_categories measure_keywords content_lower
  ((if detected_themes = [] then ["general_regulation"] else detected_themes),
   (if detected_measures = [] then ["compliance_requirement"] else detected_measures))

/-- The static theme×sector matrix of `_calculate_impact_coefficient`. -/
def theme_impacts : List (String × List (String × ℚ)) :=
  [("environmental_regulation",
      [("energy", 9), ("materials", 8), ("industrials", 7), ("utilities", 8),
       ("consumer_discretionary", 4), ("technology", 3), ("consumer_staples", 2)]),
   ("financial_regulation",
      [("financial", 9), ("real_estate", 6), ("technology", 4),
       ("consumer_discretionary", 3), ("consumer_staples", 2)]),
   ("technology_regulation",
      [("technology", 9), ("telecommunications", 8), ("financial", 5),
       ("consumer_discretionary", 4), ("consumer_staples", 2)]),
   ("healthcare_regulation",
      [("healthcare", 9), ("consumer_staples", 2), ("technology", 3)]),
   ("taxation",
      [("financial", 7), ("technology", 6), ("healthcare", 5),
       ("energy", 6), ("industrials", 5), ("consumer_staples", 2)]),
   ("trade_regulation",
      [("industrials", 8), ("materials", 7), ("technology", 6),
       ("consumer_discretionary", 7), ("consumer_staples", 2)])]

/-- The additive measure modifiers of `_calculate_impact_coefficient`. -/
def measure_modifiers : List (String × ℚ) :=
  [("tax_increase", -1), ("penalty", -1), ("restriction", -2),
   ("subsidy", 2), ("new_compliance", -1)]

/-- The theme loop of `_calculate_impact_coefficient`: `base_score` starts at
1 and takes the maximum matrix entry over the law's detected themes. -/
def base_theme_score (key_themes : List String) (sector_id : String) : ℚ :=
  key_themes.foldl
    (fun acc theme =>
      match (theme_impacts.lookup theme).bind (fun m => m.lookup sector_id) with
      | some v => max acc v
      | none => acc) 1

/-- The measure loop of `_calculate_impact_coefficient`: each detected measure
with a modifier adds it to the running score. -/
def apply_measures (key_measures : List String) (score : ℚ) : ℚ :=
  key_measures.foldl
    (fun acc m =>
      match measure_modifiers.lookup m with
      | some d => acc + d
      | none => acc) score

/-- `_calculate_impact_coefficient` (lines 211–265): theme maximum, the
consumer-staples halving `max(1, base*0.5)`, the additive measure modifiers,
and the final clamp `max(1, min(base, 10))`. -/
def calculate_impact_coefficient (key_themes key_measures : List String)
    (sector_id : String) : ℚ :=
  let base := base_theme_score key_themes sector_id
  let base := if sector_id = "consumer_staples" then max 1 (base * (1/2)) else base
  max 1 (min (apply_measures key_measures base) 10)

/-! ## Agent 5 — Sector Impact Quantifier
(`agent_05_sector_impact_quantifier.py`) -/

/-- The S-curve applied at line 94 of `_generate_yearly_projections`:
`1 / (1 + pow(2.718, -5 * (progress_ratio - 0.5)))`. The code uses the
literal base 2.718 (an approximation of e), kept exactly here. -/
noncomputable def s_curve_factor (progress_ratio : ℝ) : ℝ :=
  1 / (1 + (2.718 : ℝ) ^ (-5 * (progress_ratio - 0.5)))

/-- One row of the yearly projection list (the dict built at lines 112–119
of `_generate_yearly_projections`). -/
structure YearlyProjection where
  year : ℕ
  projected_market_cap : ℝ
  year_over_year_change_percent : ℝ
  cumulative_change_percent : ℝ
  volatility_adjustment_percent : ℝ
  confidence_level : ℝ

/-- The body of the year loop of `_generate_yearly_projections`: the clamped
progress ratio, the S-curve cumulative change, the year-over-year change
(year 1 takes the cumulative itself, i.e. previous = 0; later years subtract
the unclamped previous cumulative), and the injected volatility
(`random.uniform(-3, 3)`, modelled as an arbitrary per-year draw). -/
noncomputable def yearly_projection (baseline_cap total_percent_change : ℝ)
    (timeline_years : ℕ) (volatility : ℕ → ℝ) (confidence_threshold : ℝ)
    (year : ℕ) : YearlyProjection :=
  let progress_ratio : ℝ := min 1 ((year : ℝ) / (timeline_years : ℝ))
  let cumulative_change := total_percent_change * s_curve_factor progress_ratio
  let projected_market_cap := baseline_cap * (1 + cumulative_change / 100)
  let yoy_change :=
    if year = 1 then cumulative_change
    else cumulative_change - total_percent_change *
      s_curve_factor (((year : ℝ) - 1) / (timeline_years : ℝ))
  let volatility_factor := volatility year
  { year := year
    projected_market_cap := projected_market_cap * (1 + volatility_factor / 100)
    year_over_year_change_percent := yoy_change + volatility_factor
    cumulative_change_percent := cumulative_change
    volatility_adjustment_percent := volatility_factor
    confidence_level := max 0.5 (confidence_threshold - ((year : ℝ) - 1) * 0.1) }

/-- `_generate_yearly_projections` (lines 84–122): one projection per year in
`range(1, min(timeline_years + 1, max_projection_years + 1))`. -/
noncomputable def generate_yearly_projections (baseline_cap total_percent_change : ℝ)
    (timeline_years max_projection_years : ℕ) (volatility : ℕ → ℝ)
    (confidence_threshold : ℝ) : List YearlyProjection :=
  (List.range' 1 (min timeline_years max_projection_years)).map
    (yearly_projection baseline_cap total_percent_change timeline_years
      volatility confidence_threshold)

/-! ## Agent 6 — Portfolio Reallocator
(`agent_06_portfolio_reallocator.py`) -/

/-- `_calculate_weight_factor` (lines 111–122): three piecewise-linear
segments with breakpoints at 5 and 15 and a clamp at 1.5. -/
def calculate_weight_factor (sector_weight_percent : ℚ) : ℚ :=
  if sector_weight_percent ≤ 5 then 0.6 + (sector_weight_percent / 5) * 0.2
  else if sector_weight_percent ≤ 15 then 0.8 + ((sector_weight_percent - 5) / 10) * 0.4
  else min 1.5 (1.2 + ((sector_weight_percent - 15) / 20) * 0.3)

/-- `applied_impact_percent` in `_reallocate_single_company` (line 150):
the sector's total percent change scaled by the company's weight factor. -/
def applied_sector_impact (total_percent_change sector_weight_percent : ℚ) : ℚ :=
  total_percent_change * calculate_weight_factor sector_weight_percent

/-- `_calculate_weight_factor` over the reals (same formula as
`calculate_weight_factor`), for the continuity statement. -/
noncomputable def weight_factor_real (sector_weight_percent : ℝ) : ℝ :=
  if sector_weight_percent ≤ 5 then 0.6 + (sector_weight_percent / 5) * 0.2
  else if sector_weight_percent ≤ 15 then 0.8 + ((sector_weight_percent - 5) / 10) * 0.4
  else min 1.5 (1.2 + ((sector_weight_percent - 15) / 20) * 0.3)

/-! ## Helper lemmas -/

lemma apply_measures_cons (m : String) (ms : List String) (s : ℚ) :
    apply_measures (m :: ms) s =
      apply_measures ms
        (match measure_modifiers.lookup m with
         | some d => s + d
         | none => s) := rfl

lemma modifier_step_le (m : String) (s : ℚ) :
    (match measure_modifiers.lookup m with
     | some d => s + d
     | none => s) ≤ s + (if m = "subsidy" then (2:ℚ) else 0) := by
  by_cases h1 : m = "tax_increase" <;> by_cases h2 : m = "penalty" <;>
    by_cases h3 : m = "restriction" <;> by_cases h4 : m = "subsidy" <;>
    by_cases h5 : m = "new_compliance" <;>
    first
      | (simp_all [measure_modifiers, List.lookup]; (try norm_num); done)
      | (have e1 := beq_eq_false_iff_ne.mpr h1
         have e2 := beq_eq_false_iff_ne.mpr h2
         have e3 := beq_eq_false_iff_ne.mpr h3
         have e4 := beq_eq_false_iff_ne.mpr h4
         have e5 := beq_eq_false_iff_ne.mpr h5
         simp [measure_modifiers, List.lookup, e1, e2, e3, e4, e5, h4])

lemma apply_measures_le (key_measures : List String) :
    ∀ s : ℚ, apply_measures key_measures s ≤
      s + 2 * key_measures.count "subsidy" := by
  induction key_measures with
  | nil => intro s; simp [apply_measures]
  | cons m ms ih =>
    intro s
    rw [apply_measures_cons]
    refine le_trans (ih _) ?_
    have hcount : ((m :: ms).count "subsidy" : ℚ) =
        (ms.count "subsidy" : ℚ) + (if m = "subsidy" then 1 else 0) := by
      by_cases hm : m = "subsidy" <;> simp [List.count_cons, hm]
    rw [hcount]
    have := modifier_step_le m s
    by_cases hm : m = "subsidy" <;> simp_all <;> linarith

lemma weight_factor_mono {a b : ℚ} (hab : a ≤ b) :
    calculate_weight_factor a ≤ calculate_weight_factor b := by
  unfold calculate_weight_factor
  split_ifs <;>
    first
      | linarith
      | (apply le_min <;> linarith)
      | (refine le_trans (min_le_left _ _) ?_; linarith)
      | (exact min_le_min le_rfl (by linarith))

lemma weight_factor_le_three_halves (w : ℚ) :
    calculate_weight_factor w ≤ 1.5 := by
  unfold calculate_weight_factor
  split_ifs <;> first | linarith | exact min_le_left _ _

lemma yearly_projection_cumulative (cap total : ℝ) (t : ℕ) (vol : ℕ → ℝ)
    (ct : ℝ) (year : ℕ) :
    (yearly_projection cap total t vol ct year).cumulative_change_percent =
      total * s_curve_factor (min 1 ((year:ℝ)/(t:ℝ))) := rfl

lemma yearly_projection_yoy (cap total : ℝ) (t : ℕ) (vol : ℕ → ℝ)
    (ct : ℝ) (year : ℕ) :
    (yearly_projection cap total t vol ct year).year_over_year_change_percent =
      (if year = 1 then total * s_curve_factor (min 1 ((year:ℝ)/(t:ℝ)))
       else total * s_curve_factor (min 1 ((year:ℝ)/(t:ℝ))) -
         total * s_curve_factor (((year:ℝ) - 1)/(t:ℝ))) + vol year := rfl

lemma map_range'_getLast {α : Type} (f : ℕ → α) (n : ℕ) (h : 1 ≤ n) :
    ((List.range' 1 n).map f).getLast? = some (f n) := by
  obtain ⟨m, rfl⟩ : ∃ m, n = m + 1 := ⟨n - 1, by omega⟩
  rw [List.range'_concat, List.map_append]
  simp [Nat.add_comm]

lemma s_curve_factor_one_bounds :
    (231/250 : ℝ) < s_curve_factor 1 ∧ s_curve_factor 1 < 37/40 := by
  have hb : (0:ℝ) < 2.718 := by norm_num
  have hx : (2.718 : ℝ) ^ (-5 * ((1:ℝ) - 0.5)) = ((2.718:ℝ) ^ ((5:ℝ)/2))⁻¹ := by
    rw [show (-5 * ((1:ℝ) - 0.5)) = -((5:ℝ)/2) by norm_num]
    rw [Real.rpow_neg hb.le]
  set y := (2.718:ℝ) ^ ((5:ℝ)/2) with hy
  have hy0 : (0:ℝ) < y := Real.rpow_pos_of_pos hb _
  have hy2 : y ^ (2:ℕ) = 148336238491865568 / 1000000000000000 := by
    rw [hy, ← Real.rpow_natCast ((2.718:ℝ) ^ ((5:ℝ)/2)) 2, ← Real.rpow_mul hb.le]
    rw [show ((5:ℝ)/2 * ((2:ℕ):ℝ)) = ((5:ℕ):ℝ) by push_cast; ring, Real.rpow_natCast]
    norm_num
  have hylo : (231/19 : ℝ) < y := by nlinarith [hy2, hy0]
  have hyhi : y < 37/3 := by nlinarith [hy2, hy0]
  have hs : s_curve_factor 1 = 1 / (1 + y⁻¹) := by
    unfold s_curve_factor
    rw [hx]
  have hinvlo : y⁻¹ < 19/231 := by
    have h := inv_strictAnti₀ (by norm_num : (0:ℝ) < 231/19) hylo
    norm_num at h
    linarith
  have hinvhi : (3/37 : ℝ) < y⁻¹ := by
    have h := inv_strictAnti₀ hy0 hyhi
    norm_num at h
    linarith
  have hden : (0:ℝ) < 1 + y⁻¹ := by positivity
  constructor
  · rw [hs, show (231/250:ℝ) = 1/(250/231) by norm_num]
    exact one_div_lt_one_div_of_lt hden (by linarith)
  · rw [hs, show (37/40:ℝ) = 1/(40/37) by norm_num]
    exact one_div_lt_one_div_of_lt (by norm_num) (by linarith)

lemma sum_yoy_zero_vol (cap total : ℝ) (t : ℕ) (ct : ℝ) (ht : 1 ≤ t) :
    ∀ n : ℕ, 1 ≤ n → n ≤ t →
      ((List.range' 1 n).map (fun y =>
          (yearly_projection cap total t (fun _ => 0) ct
            y).year_over_year_change_percent)).sum
        = total * s_curve_factor ((n:ℝ)/(t:ℝ)) := by
  have ht0 : (0:ℝ) < (t:ℝ) := by exact_mod_cast ht
  have hmink : ∀ k : ℕ, k ≤ t → min 1 ((k:ℝ)/(t:ℝ)) = (k:ℝ)/(t:ℝ) := by
    intro k hk
    apply min_eq_right
    rw [div_le_one ht0]
    exact_mod_cast hk
  intro n
  induction n with
  | zero => intro h; exact absurd h (by omega)
  | succ n ih =>
    intro _ hle
    by_cases hn : n = 0
    · subst hn
      rw [List.range'_one]
      simp only [List.map_cons, List.map_nil, List.sum_cons, List.sum_nil]
      rw [yearly_projection_yoy, if_pos rfl, hmink 1 ht]
      push_cast
      ring
    · have hn1 : 1 ≤ n := by omega
      have hnt : n ≤ t := by omega
      rw [List.range'_concat, List.map_append, List.sum_append, ih hn1 hnt]
      simp only [one_mul, List.map_cons, List.map_nil, List.sum_cons, List.sum_nil]
      rw [yearly_projection_yoy, if_neg (by omega : ¬(1 + n = 1)),
        hmink (1+n) (by omega)]
      have hc : (((1+n:ℕ):ℝ) - 1) = (n:ℝ) := by push_cast; ring
      rw [hc]
      have hc2 : (((1+n:ℕ)):ℝ) = (((n+1:ℕ)):ℝ) := by push_cast; ring
      rw [hc2]
      ring

lemma yearly_projection_final_cumulative (cap total : ℝ) (t : ℕ) (vol : ℕ → ℝ)
    (ct : ℝ) (ht : 1 ≤ t) :
    (yearly_projection cap total t vol ct t).cumulative_change_percent =
      total * s_curve_factor 1 := by
  have ht' : ((t:ℝ)) ≠ 0 := Nat.cast_ne_zero.mpr (by omega)
  rw [yearly_projection_cumulative, div_self ht', min_self]

lemma gen_cumulative_getLast (cap total : ℝ) (t m : ℕ) (vol : ℕ → ℝ) (ct : ℝ)
    (h1 : 1 ≤ t) (h2 : t ≤ m) :
    ((generate_yearly_projections cap total t m vol ct).map
      (fun p => p.cumulative_change_percent)).getLast? =
      some (total * s_curve_factor 1) := by
  unfold generate_yearly_projections
  rw [min_eq_left h2, List.map_map, map_range'_getLast _ t h1]
  have hfin := yearly_projection_final_cumulative cap total t vol ct h1
  simp only [Function.comp_apply, hfin]

lemma detect_categories_subset (tbl : List (String × List String)) (cl : List Char) :
    ∀ t ∈ detect_categories tbl cl, t ∈ tbl.map Prod.fst := by
  intro t ht
  simp only [detect_categories, List.mem_map] at ht ⊢
  obtain ⟨p, hp, rfl⟩ := ht
  exact ⟨p, (List.mem_filter.mp hp).1, rfl⟩

/-! ## Claim theorems -/

/-- C1: for every coefficient the monetary impact rate is exactly one of
+15%, +8%, +2%, −12%, −20%, selected by the conditions `≥8`, `≥6`, `≤2`,
`≤4`, else — evaluated in that order, first match winning — and the net
capital change equals `market_cap` times the selected rate. -/
theorem monetary_rate_step_function (market_cap coefficient : ℚ) :
    (impact_rate coefficient = 15/100 ∨ impact_rate coefficient = 8/100 ∨
     impact_rate coefficient = 2/100 ∨ impact_rate coefficient = -(12/100) ∨
     impact_rate coefficient = -(20/100)) ∧
    (8 ≤ coefficient → impact_rate coefficient = 15/100) ∧
    (¬ 8 ≤ coefficient → 6 ≤ coefficient → impact_rate coefficient = 8/100) ∧
    (¬ 8 ≤ coefficient → ¬ 6 ≤ coefficient → coefficient ≤ 2 →
      impact_rate coefficient = -(20/100)) ∧
    (¬ 8 ≤ coefficient → ¬ 6 ≤ coefficient → ¬ coefficient ≤ 2 → coefficient ≤ 4 →
      impact_rate coefficient = -(12/100)) ∧
    (¬ 8 ≤ coefficient → ¬ 6 ≤ coefficient → ¬ coefficient ≤ 2 → ¬ coefficient ≤ 4 →
      impact_rate coefficient = 2/100) ∧
    (calculate_monetary_impact market_cap coefficient).net_change =
      market_cap * impact_rate coefficient := by
  refine ⟨?_, ?_, ?_, ?_, ?_, ?_, rfl⟩ <;>
    (intros; unfold impact_rate; split_ifs <;> tauto)

/-- Witness for C1: at coefficient 5 none of the four conditions holds, so
the baseline +2% rate is selected. -/
theorem monetary_rate_step_function_witness :
    impact_rate 5 = 2/100 ∧
    (calculate_monetary_impact 1000 5).net_change = 1000 * impact_rate 5 :=
  ⟨(monetary_rate_step_function 1000 5).2.2.2.2.2.1
      (by decide) (by decide) (by decide) (by decide),
   (monetary_rate_step_function 1000 5).2.2.2.2.2.2⟩

/-- C2: for every law (any theme and measure lists) and every sector, the
impact coefficient lies in the closed interval [1, 10]. -/
theorem impact_coefficient_in_range (key_themes key_measures : List String)
    (sector_id : String) :
    1 ≤ calculate_impact_coefficient key_themes key_measures sector_id ∧
    calculate_impact_coefficient key_themes key_measures sector_id ≤ 10 := by
  unfold calculate_impact_coefficient
  exact ⟨le_max_left _ _, max_le (by norm_num) (min_le_right _ _)⟩

/-- C3 counterexample: a sector weight of 20% yields weight factor 1.275,
not the clamped maximum 1.5. -/
theorem weight_factor_at_twenty_not_clamped :
    calculate_weight_factor 20 = 1.275 ∧ calculate_weight_factor 20 ≠ 1.5 := by
  unfold calculate_weight_factor
  rw [if_neg (by norm_num), if_neg (by norm_num), min_eq_right (by norm_num)]
  norm_num

/-- C3 (amended): a company whose sector_weight_percent equals 20% receives
weight_factor 1.275 (the >15% segment gives 1.2 + (w−15)/20 × 0.3, which only
reaches the 1.5 clamp at w ≥ 35), so its applied_sector_impact_percent equals
1.275 times the sector's total_percent_change. -/
theorem weight_factor_at_twenty (total_percent_change : ℚ) :
    calculate_weight_factor 20 = 1.275 ∧
    applied_sector_impact total_percent_change 20 = total_percent_change * 1.275 ∧
    (∀ w : ℚ, 35 ≤ w → calculate_weight_factor w = 1.5) := by
  have h20 : calculate_weight_factor 20 = 1.275 := by
    unfold calculate_weight_factor
    rw [if_neg (by norm_num), if_neg (by norm_num), min_eq_right (by norm_num)]
    norm_num
  refine ⟨h20, by rw [applied_sector_impact, h20], ?_⟩
  intro w hw
  unfold calculate_weight_factor
  rw [if_neg (by linarith), if_neg (by linarith)]
  exact min_eq_left (by linarith)

/-- Witness for C3 (amended): at sector weight 40 the clamp is reached. -/
theorem weight_factor_at_twenty_witness :
    calculate_weight_factor 20 = 1.275 ∧ calculate_weight_factor 40 = 1.5 :=
  ⟨(weight_factor_at_twenty 1).1, (weight_factor_at_twenty 1).2.2 40 (by decide)⟩

/-- C5 counterexample: for a law with themes [environmental_regulation] and
measures [subsidy], the consumer_staples coefficient is 3, exceeding
max(1, half the unadjusted base score) = 1. -/
theorem staples_subsidy_exceeds_half :
    calculate_impact_coefficient ["environmental_regulation"] ["subsidy"]
        "consumer_staples" = 3 ∧
    max 1 (base_theme_score ["environmental_regulation"] "consumer_staples"
        * (1/2)) = 1 ∧
    ¬ calculate_impact_coefficient ["environmental_regulation"] ["subsidy"]
          "consumer_staples" ≤
        max 1 (base_theme_score ["environmental_regulation"] "consumer_staples"
          * (1/2)) := by
  have hb : base_theme_score ["environmental_regulation"] "consumer_staples" = 2 := by
    decide
  have hl : measure_modifiers.lookup "subsidy" = some 2 := by decide
  have hc : calculate_impact_coefficient ["environmental_regulation"] ["subsidy"]
      "consumer_staples" = 3 := by
    simp only [calculate_impact_coefficient, if_pos, hb]
    rw [apply_measures_cons, hl]
    have h1 : max (1:ℚ) (2 * (1/2)) = 1 := by norm_num
    rw [h1]
    simp only [apply_measures, List.foldl_nil]
    norm_num [min_eq_left, max_eq_right]
  rw [hc, hb]
  norm_num

/-- C5 (amended): the consumer_staples coefficient never exceeds
max(1, half the unadjusted base score) whenever the subsidy measure is not
detected; each detected subsidy can raise it by at most 2 above that bound
(the measure modifiers are applied after the halving). -/
theorem staples_halved_bound (key_themes key_measures : List String)
    (h : key_measures.count "subsidy" = 0) :
    calculate_impact_coefficient key_themes key_measures "consumer_staples" ≤
      max 1 (base_theme_score key_themes "consumer_staples" * (1/2)) ∧
    ∀ km : List String,
      calculate_impact_coefficient key_themes km "consumer_staples" ≤
        max 1 (base_theme_score key_themes "consumer_staples" * (1/2)) +
          2 * km.count "subsidy" := by
  have key : ∀ km : List String,
      calculate_impact_coefficient key_themes km "consumer_staples" ≤
        max 1 (base_theme_score key_themes "consumer_staples" * (1/2)) +
          2 * km.count "subsidy" := by
    intro km
    simp only [calculate_impact_coefficient, if_pos]
    have hge : (1:ℚ) ≤ max 1 (base_theme_score key_themes "consumer_staples" * (1/2)) :=
      le_max_left _ _
    have hcount : (0:ℚ) ≤ 2 * km.count "subsidy" := by positivity
    exact max_le (by linarith)
      (le_trans (min_le_left _ _) (apply_measures_le km _))
  refine ⟨?_, key⟩
  have := key key_measures
  rw [h] at this
  simpa using this

/-- Witness for C5 (amended): with themes [environmental_regulation] and
measures [tax_increase] (no subsidy), the staples coefficient stays at or
below max(1, base/2). -/
theorem staples_halved_bound_witness :
    calculate_impact_coefficient ["environmental_regulation"] ["tax_increase"]
        "consumer_staples" ≤
      max 1 (base_theme_score ["environmental_regulation"] "consumer_staples"
        * (1/2)) :=
  (staples_halved_bound ["environmental_regulation"] ["tax_increase"]
    (by decide)).1

/-- C6 counterexample: the ticker STZ appears in the consumer_staples static
list, yet classification returns "financial" (the financial list also
contains STZ and comes earlier in the dict order). -/
theorem duplicated_ticker_not_list_sector :
    assign_sector_by_ticker "STZ" = "financial" ∧
    (∃ p ∈ ticker_sectors, p.1 = "consumer_staples" ∧ "STZ" ∈ p.2) ∧
    assign_sector_by_ticker "STZ" ≠ "consumer_staples" := by decide

/-- C6 (amended): every ticker appearing in at least one static list is
classified as the sector of the first list containing it (in dict insertion
order), so the fallback heuristics are never consulted for listed tickers;
for a ticker in exactly one list this is that list's designated sector, while
for the duplicated tickers (RVTY, STZ, CHRW, EXPD) the earlier list wins. -/
theorem known_ticker_first_list_wins (ticker : String)
    (h : ∃ p ∈ ticker_sectors, ticker ∈ p.2) :
    ∃ p, ticker_sectors.find? (fun q => q.2.contains ticker) = some p ∧
      p ∈ ticker_sectors ∧ ticker ∈ p.2 ∧
      assign_sector_by_ticker ticker = p.1 := by
  have hs : (ticker_sectors.find? (fun q => q.2.contains ticker)).isSome := by
    rw [List.find?_isSome]
    obtain ⟨p, hp, ht⟩ := h
    exact ⟨p, hp, by simpa using ht⟩
  obtain ⟨p, hp⟩ := Option.isSome_iff_exists.mp hs
  refine ⟨p, hp, List.mem_of_find?_eq_some hp, ?_, ?_⟩
  · simpa using List.find?_some hp
  · unfold assign_sector_by_ticker
    rw [hp]

/-- Witness for C6 (amended): NVDA is classified by its (first and only)
list, technology. -/
theorem known_ticker_first_list_wins_witness :
    ∃ p, ticker_sectors.find? (fun q => q.2.contains "NVDA") = some p ∧
      p ∈ ticker_sectors ∧ "NVDA" ∈ p.2 ∧
      assign_sector_by_ticker "NVDA" = p.1 :=
  known_ticker_first_list_wins "NVDA" (by decide)

/-- C9 counterexample: a text matching no keyword (the empty text) yields
key_themes = [general_regulation] and key_measures = [compliance_requirement],
which lie outside the six fixed theme and measure categories. -/
theorem sentinel_outside_categories :
    extract_themes_and_measures [] =
      (["general_regulation"], ["compliance_requirement"]) ∧
    "general_regulation" ∉ ["environmental_regulation", "financial_regulation",
      "technology_regulation", "healthcare_regulation", "taxation",
      "trade_regulation"] ∧
    "compliance_requirement" ∉ ["tax_increase", "new_compliance",
      "reporting_obligation", "penalty", "subsidy", "restriction"] := by decide

/-- C9 (amended): whenever at least one theme keyword matches, the detected
key_themes list is a subset of the six fixed theme categories, and likewise
key_measures of the six measure categories; a text matching no theme (resp.
measure) keyword instead gets the sentinel singleton general_regulation
(resp. compliance_requirement), which is outside the six. -/
theorem detected_categories_closed (content : List Char) :
    (detect_categories theme_keywords (content.map Char.toLower) ≠ [] →
      ∀ t ∈ (extract_themes_and_measures content).1,
        t ∈ ["environmental_regulation", "financial_regulation",
             "technology_regulation", "healthcare_regulation", "taxation",
             "trade_regulation"]) ∧
    (detect_categories theme_keywords (content.map Char.toLower) = [] →
      (extract_themes_and_measures content).1 = ["general_regulation"]) ∧
    (detect_categories measure_keywords (content.map Char.toLower) ≠ [] →
      ∀ m ∈ (extract_themes_and_measures content).2,
        m ∈ ["tax_increase", "new_compliance", "reporting_obligation",
             "penalty", "subsidy", "restriction"]) ∧
    (detect_categories measure_keywords (content.map Char.toLower) = [] →
      (extract_themes_and_measures content).2 = ["compliance_requirement"]) := by
  have h1 : (extract_themes_and_measures content).1 =
      (if detect_categories theme_keywords (content.map Char.toLower) = []
       then ["general_regulation"]
       else detect_categories theme_keywords (content.map Char.toLower)) := rfl
  have h2 : (extract_themes_and_measures content).2 =
      (if detect_categories measure_keywords (content.map Char.toLower) = []
       then ["compliance_requirement"]
       else detect_categories measure_keywords (content.map Char.toLower)) := rfl
  refine ⟨?_, ?_, ?_, ?_⟩
  · intro hne t ht
    rw [h1, if_neg hne] at ht
    simpa [theme_keywords] using
      detect_categories_subset theme_keywords (content.map Char.toLower) t ht
  · intro he; rw [h1, if_pos he]
  · intro hne m hm
    rw [h2, if_neg hne] at hm
    simpa [measure_keywords] using
      detect_categories_subset measure_keywords (content.map Char.toLower) m hm
  · intro he; rw [h2, if_pos he]

/-- Witness for C9 (amended): the text "tax" matches the taxation theme (so
its themes are among the six categories) and matches no measure keyword (so
its measures fall back to the sentinel). -/
theorem detected_categories_closed_witness :
    (∀ t ∈ (extract_themes_and_measures "tax".toList).1,
        t ∈ ["environmental_regulation", "financial_regulation",
             "technology_regulation", "healthcare_regulation", "taxation",
             "trade_regulation"]) ∧
    (extract_themes_and_measures "tax".toList).2 = ["compliance_requirement"] :=
  ⟨(detected_categories_closed "tax".toList).1 (by decide),
   (detected_categories_closed "tax".toList).2.2.2 (by decide)⟩

/-- C10: a sector referenced by no law impact gets net coefficient 0, is
classified as "decline", and receives the −20% rate on its whole market cap —
not the +2% baseline-growth rate. -/
theorem unimpacted_sector_full_decline (market_cap : ℚ) :
    net_impact_coefficient [] = 0 ∧
    determine_impact_direction (net_impact_coefficient []) = "decline" ∧
    impact_rate (net_impact_coefficient []) = -(20/100) ∧
    impact_rate (net_impact_coefficient []) ≠ 2/100 ∧
    (calculate_monetary_impact market_cap (net_impact_coefficient [])).net_change =
      market_cap * (-(20/100)) := by
  have h0 : net_impact_coefficient [] = 0 := by simp [net_impact_coefficient]
  have hr : impact_rate 0 = -(20/100) := by
    unfold impact_rate
    rw [if_neg (by norm_num), if_neg (by norm_num), if_pos (by norm_num)]
  refine ⟨h0, ?_, ?_, ?_, ?_⟩ <;> rw [h0]
  · unfold determine_impact_direction
    rw [if_neg (by norm_num), if_pos (by norm_num)]
  · exact hr
  · rw [hr]; norm_num
  · show market_cap * impact_rate 0 = _
    rw [hr]

/-- C4 counterexample: with total_percent_change = 100 and a 1-year timeline,
the final year's cumulative change is 100 × s(1.0) < 93, far from the
claimed ≈ 100 × 0.9933. -/
theorem final_year_not_point_9933 :
    ((generate_yearly_projections 1000 100 1 3 (fun _ => 0) 0.9).map
      (fun p => p.cumulative_change_percent)).getLast? =
      some (100 * s_curve_factor 1) ∧
    100 * s_curve_factor 1 < 93 := by
  refine ⟨gen_cumulative_getLast 1000 100 1 3 (fun _ => 0) 0.9
    (by norm_num) (by norm_num), ?_⟩
  have h := s_curve_factor_one_bounds.2
  linarith

/-- C4 (amended): for any timeline with 1 ≤ timeline_years ≤
max_projection_years and any volatility draw, the final year's
cumulative_change_percent equals total_percent_change × s(1.0); since the
code's S-curve uses base 2.718 and exponent −5·(progress − 0.5),
s(1.0) = 1/(1 + 2.718^(−2.5)) lies strictly between 0.924 and 0.925
(approximately 0.9241, not ≈ 0.9933). -/
theorem final_year_cumulative_change (baseline_cap total_percent_change : ℝ)
    (timeline_years max_projection_years : ℕ) (volatility : ℕ → ℝ)
    (confidence_threshold : ℝ) (h1 : 1 ≤ timeline_years)
    (h2 : timeline_years ≤ max_projection_years) :
    ((generate_yearly_projections baseline_cap total_percent_change
        timeline_years max_projection_years volatility
        confidence_threshold).map
      (fun p => p.cumulative_change_percent)).getLast? =
      some (total_percent_change * s_curve_factor 1) ∧
    (231/250 : ℝ) < s_curve_factor 1 ∧ s_curve_factor 1 < (37/40 : ℝ) :=
  ⟨gen_cumulative_getLast baseline_cap total_percent_change timeline_years
      max_projection_years volatility confidence_threshold h1 h2,
   s_curve_factor_one_bounds.1, s_curve_factor_one_bounds.2⟩

/-- Witness for C4 (amended): a 2-year timeline with max 3 years. -/
theorem final_year_cumulative_change_witness :
    ((generate_yearly_projections 1000 50 2 3 (fun _ => 1) 0.9).map
      (fun p => p.cumulative_change_percent)).getLast? =
      some (50 * s_curve_factor 1) :=
  (final_year_cumulative_change 1000 50 2 3 (fun _ => 1) 0.9
    (by decide) (by decide)).1

/-- C7: with the injected volatility set to zero, the year-over-year change
percentages over years 1..timeline_years sum (telescope, year 1's previous
cumulative being 0) to the final year's cumulative_change_percent,
total_percent_change × s(1.0). -/
theorem yoy_changes_telescope (baseline_cap total_percent_change : ℝ)
    (timeline_years max_projection_years : ℕ) (confidence_threshold : ℝ)
    (h1 : 1 ≤ timeline_years) (h2 : timeline_years ≤ max_projection_years) :
    ((generate_yearly_projections baseline_cap total_percent_change
        timeline_years max_projection_years (fun _ => 0)
        confidence_threshold).map
      (fun p => p.year_over_year_change_percent)).sum =
      total_percent_change * s_curve_factor 1 ∧
    ((generate_yearly_projections baseline_cap total_percent_change
        timeline_years max_projection_years (fun _ => 0)
        confidence_threshold).map
      (fun p => p.cumulative_change_percent)).getLast? =
      some (total_percent_change * s_curve_factor 1) := by
  have ht' : ((timeline_years:ℝ)) ≠ 0 := Nat.cast_ne_zero.mpr (by omega)
  constructor
  · unfold generate_yearly_projections
    rw [min_eq_left h2, List.map_map]
    have hsum := sum_yoy_zero_vol baseline_cap total_percent_change
      timeline_years confidence_threshold h1 timeline_years h1 le_rfl
    rw [div_self ht'] at hsum
    simpa [Function.comp] using hsum
  · exact gen_cumulative_getLast baseline_cap total_percent_change
      timeline_years max_projection_years (fun _ => 0) confidence_threshold h1 h2

/-- Witness for C7: a 2-year timeline with max 3 years. -/
theorem yoy_changes_telescope_witness :
    ((generate_yearly_projections 1000 50 2 3 (fun _ => 0) 0.9).map
      (fun p => p.year_over_year_change_percent)).sum =
      50 * s_curve_factor 1 :=
  (yoy_changes_telescope 1000 50 2 3 0.9 (by decide) (by decide)).1

/-- C8: the weight factor is continuous in sector_weight_percent (the 5% and
15% segment boundaries agree from both sides), and over [0, 100] it is
monotone non-decreasing and never exceeds 1.5. -/
theorem weight_factor_continuous_monotone_bounded :
    Continuous weight_factor_real ∧
    (∀ a b : ℚ, 0 ≤ a → a ≤ b → b ≤ 100 →
      calculate_weight_factor a ≤ calculate_weight_factor b) ∧
    (∀ w : ℚ, 0 ≤ w → w ≤ 100 → calculate_weight_factor w ≤ 1.5) := by
  refine ⟨?_, fun a b _ hab _ => weight_factor_mono hab,
    fun w _ _ => weight_factor_le_three_halves w⟩
  unfold weight_factor_real
  apply Continuous.if_le
  · fun_prop
  · apply Continuous.if_le
    · fun_prop
    · apply Continuous.min
      · fun_prop
      · fun_prop
    · fun_prop
    · fun_prop
    · intro x hx
      rw [hx]
      norm_num
  · fun_prop
  · fun_prop
  · intro x hx
    rw [hx, if_pos (by norm_num : (5:ℝ) ≤ 15)]
    norm_num

/-- Witness for C8: monotonicity and the 1.5 bound at concrete weights. -/
theorem weight_factor_continuous_monotone_bounded_witness :
    calculate_weight_factor 3 ≤ calculate_weight_factor 7 ∧
    calculate_weight_factor 7 ≤ 1.5 :=
  ⟨weight_factor_continuous_monotone_bounded.2.1 3 7
      (by decide) (by decide) (by decide),
   weight_factor_continuous_monotone_bounded.2.2 7 (by decide) (by decide)⟩

end LawPipeline
